import Mathlib

/-!
Shallow embedding of the `@soapjs/soap-node-mysql` core:
the condition-tree-to-SQL translator (`MySqlWhereParser`), the query
factory (`MySqlQueryFactory`) and the execution layer (`MySqlCollection`),
together with theorems about placeholder/value correspondence, default
fragments, condition reuse, argument mutation and error handling.

JavaScript runtime features that matter to the semantics are made
explicit: `undefined` is `Option.none`, string template interpolation is
string concatenation, a thrown exception is `Except.error`, and JS
truthiness of numbers and strings is modelled by dedicated predicates.
-/

set_option maxHeartbeats 1000000

namespace SoapMySql

/-- A JS scalar value that can appear as a bound parameter
(`right` of a condition, or a field value of a record). -/
inductive Value where
  | vInt (n : Int)
  | vStr (s : String)
  | vBool (b : Bool)
  | vNull
deriving DecidableEq, Repr

/-- A JS `number`: either a finite (here: integral) number, an infinity,
or `NaN`.  `Number.isFinite` is true exactly on `num`. -/
inductive JsNum where
  | num (n : Int)
  | inf
  | negInf
  | nan
deriving DecidableEq, Repr

/-- `Number.isFinite x` for an optional (possibly `undefined`) number. -/
def jsIsFiniteO : Option JsNum → Bool
  | some (JsNum.num _) => true
  | _ => false

/-- JS truthiness of an optional number: `undefined`, `0` and `NaN` are
falsy; every other number (infinities included) is truthy. -/
def jsTruthyO : Option JsNum → Bool
  | some (JsNum.num n) => n != 0
  | some JsNum.inf => true
  | some JsNum.negInf => true
  | _ => false

/-- String template rendering of a JS number (`` `${x}` ``). -/
def jsNumToStr : JsNum → String
  | JsNum.num n => toString n
  | JsNum.inf => "Infinity"
  | JsNum.negInf => "-Infinity"
  | JsNum.nan => "NaN"

/-- The boolean joiner of a `NestedCondition` (`"and" | "or"` in the
TS union type); `operator.toUpperCase()` renders it as `AND` / `OR`. -/
inductive BoolJoiner where
  | and
  | or
deriving DecidableEq, Repr

/-- `operator.toUpperCase()` on the joiner string. -/
def joinerSql : BoolJoiner → String
  | BoolJoiner.and => "AND"
  | BoolJoiner.or => "OR"

/-- The condition tree (`WhereCondition` of `@soapjs/soap`): a leaf
`Condition {left, operator, right}` or a `NestedCondition
{conditions, operator}`.  The leaf operator is kept as a raw string
because the parser must reject unknown operators at run time. -/
inductive WhereCondition where
  | leaf (left : String) (operator : String) (right : Value)
  | group (joiner : BoolJoiner) (conditions : List WhereCondition)

/-- Errors thrown synchronously during query compilation. -/
inductive CompileErr where
  /-- `throw new Error("Unsupported operator ...")` in
  `convertOperatorToSql`; the spec calls it `InvalidConditionError`. -/
  | invalidCondition (op : String)
  /-- A JS `TypeError` from reading a property of `undefined`. -/
  | typeError
deriving DecidableEq, Repr

/-- A compiled fragment: SQL text plus the ordered bound values
(the return shape `{ query, values }` of `MySqlWhereParser.parse`). -/
structure Frag where
  query : String
  values : List Value
deriving DecidableEq, Repr

/-- `MySqlWhereParser.convertOperatorToSql`: the switch over the
operator string; the default branch throws. -/
def convertOperatorToSql (op : String) : Except CompileErr String :=
  match op with
  | "eq" => Except.ok "="
  | "ne" => Except.ok "!="
  | "gt" => Except.ok ">"
  | "lt" => Except.ok "<"
  | "gte" => Except.ok ">="
  | "lte" => Except.ok "<="
  | "in" => Except.ok "IN"
  | "nin" => Except.ok "NOT IN"
  | "like" => Except.ok "LIKE"
  | _ => Except.error (CompileErr.invalidCondition op)

/-- `Array.prototype.join(sep)`. -/
def joinSep (sep : String) : List String → String
  | [] => ""
  | [s] => s
  | s :: rest => s ++ sep ++ joinSep sep rest

mutual

/-- `MySqlWhereParser.parse` on a non-null condition tree:
a leaf goes through `parseSimpleCondition`
(`"<left> <sqlOp> ?"`, values `[right]`), a group through
`parseNestedCondition` (children parsed in order, each wrapped in
parentheses, joined with the uppercased joiner, values concatenated). -/
def parseCond : WhereCondition → Except CompileErr Frag
  | WhereCondition.leaf l op r => do
      let s ← convertOperatorToSql op
      Except.ok { query := l ++ " " ++ s ++ " ?", values := [r] }
  | WhereCondition.group j cs => do
      let (parts, vals) ← parseConds cs
      Except.ok { query := joinSep (" " ++ joinerSql j ++ " ") parts, values := vals }

/-- The loop body of `parseNestedCondition`: pushes `"(<query>)"` onto
`sqlParts` and appends the child's values, child by child in order. -/
def parseConds : List WhereCondition → Except CompileErr (List String × List Value)
  | [] => Except.ok ([], [])
  | c :: cs => do
      let p ← parseCond c
      let (parts, vals) ← parseConds cs
      Except.ok (("(" ++ p.query ++ ")") :: parts, p.values ++ vals)

end

/-- `MySqlWhereParser.parse` as called on `where.result`, which may be
`null`: `null` compiles to the neutral-true predicate `1=1`. -/
def parseResult : Option WhereCondition → Except CompileErr Frag
  | none => Except.ok { query := "1=1", values := [] }
  | some c => parseCond c

mutual

/-- Pre-order, left-to-right list of the leaves
`(left, operator, right)` of a condition tree. -/
def leavesOf : WhereCondition → List (String × String × Value)
  | WhereCondition.leaf l op r => [(l, op, r)]
  | WhereCondition.group _ cs => leavesOfList cs

/-- Leaves of a list of condition trees, in order. -/
def leavesOfList : List WhereCondition → List (String × String × Value)
  | [] => []
  | c :: cs => leavesOf c ++ leavesOfList cs

end

/-- Number of `?` placeholder tokens in a piece of SQL text. -/
def countQ (s : String) : Nat := s.data.count '?'

/-- The closed operator enumeration of the spec. -/
def supportedOps : List String :=
  ["eq", "ne", "gt", "lt", "gte", "lte", "in", "nin", "like"]

/-- Well-formedness of a condition tree, matching the spec's data-model
invariants: every leaf's operator is in the closed enumeration and every
leaf's field name is placeholder-free (identifier-safe). -/
def WellFormed (c : WhereCondition) : Prop :=
  ∀ t ∈ leavesOf c, t.2.1 ∈ supportedOps ∧ countQ t.1 = 0

instance (c : WhereCondition) : Decidable (WellFormed c) := by
  unfold WellFormed; infer_instance

theorem countQ_append (a b : String) : countQ (a ++ b) = countQ a + countQ b := by
  simp [countQ, String.data_append, List.count_append]

theorem countQ_joinSep (sep : String) (hsep : countQ sep = 0) :
    ∀ l : List String, countQ (joinSep sep l) = (l.map countQ).sum := by
  intro l
  induction l with
  | nil => simp [joinSep, countQ]
  | cons s rest ih =>
    cases rest with
    | nil => simp [joinSep]
    | cons b bs =>
      simp only [joinSep, countQ_append, hsep, List.map_cons, List.sum_cons] at *
      omega

theorem convertOp_of_supported (op : String) (h : op ∈ supportedOps) :
    ∃ s, convertOperatorToSql op = Except.ok s ∧ countQ s = 0 := by
  fin_cases h <;> exact ⟨_, rfl, rfl⟩

theorem mem_leavesOfList_of_mem (c : WhereCondition)
    (t : String × String × Value) (ht : t ∈ leavesOf c) :
    ∀ cs : List WhereCondition, c ∈ cs → t ∈ leavesOfList cs := by
  intro cs
  induction cs with
  | nil => intro h; cases h
  | cons d ds ih =>
    intro h
    simp only [leavesOfList, List.mem_append]
    rcases List.mem_cons.mp h with h | h
    · exact Or.inl (h ▸ ht)
    · exact Or.inr (ih h)

theorem parse_wf_aux :
    ∀ (n : Nat) (c : WhereCondition), sizeOf c ≤ n → WellFormed c →
      ∃ q, parseCond c = Except.ok { query := q, values := (leavesOf c).map (·.2.2) } ∧
        countQ q = (leavesOf c).length := by
  intro n
  induction n with
  | zero =>
    intro c hc
    exfalso
    cases c <;> simp_arith at hc
  | succ n ih =>
    intro c hc hwf
    cases c with
    | leaf l op r =>
      have h1 := hwf (l, op, r) (by simp [leavesOf])
      obtain ⟨s, hs, hs0⟩ := convertOp_of_supported op h1.1
      refine ⟨l ++ " " ++ s ++ " ?", ?_, ?_⟩
      · simp [parseCond, hs, leavesOf, Bind.bind, Except.bind]
      · have hq1 : countQ " ?" = 1 := rfl
        have hsp : countQ " " = 0 := rfl
        simp only [countQ_append, hs0, h1.2, hq1, hsp, leavesOf, List.length_cons,
          List.length_nil]
    | group j cs =>
      have hcs : sizeOf cs ≤ n := by
        cases j <;> simp_arith at hc <;> omega
      have hwfl : ∀ d ∈ cs, WellFormed d := by
        intro d hd t ht
        have hmem := mem_leavesOfList_of_mem d t ht cs hd
        refine hwf t ?_
        simpa only [leavesOf] using hmem
      have key : ∀ (ds : List WhereCondition), sizeOf ds ≤ n → (∀ d ∈ ds, WellFormed d) →
          ∃ parts, parseConds ds =
              Except.ok (parts, (leavesOfList ds).map (·.2.2)) ∧
            (parts.map countQ).sum = (leavesOfList ds).length := by
        intro ds
        induction ds with
        | nil => intro _ _; exact ⟨[], rfl, rfl⟩
        | cons d ds ihd =>
          intro hsz hwfd
          have hszd : sizeOf d ≤ n := by
            have : sizeOf (d :: ds) = 1 + sizeOf d + sizeOf ds := rfl
            omega
          have hszds : sizeOf ds ≤ n := by
            have : sizeOf (d :: ds) = 1 + sizeOf d + sizeOf ds := rfl
            have h2 : 0 < sizeOf d := by cases d <;> simp_arith
            omega
          obtain ⟨q, hq, hqc⟩ := ih d hszd (hwfd d (by simp))
          obtain ⟨parts, hp, hpc⟩ := ihd hszds (fun x hx => hwfd x (by simp [hx]))
          refine ⟨("(" ++ q ++ ")") :: parts, ?_, ?_⟩
          · simp [parseConds, hq, hp, leavesOfList, Bind.bind, Except.bind]
          · have hpar : countQ ("(" ++ q ++ ")") = countQ q := by
              simp [countQ_append]
              rw [show countQ "(" = 0 from rfl, show countQ ")" = 0 from rfl]
              omega
            simp [hpar, hqc, hpc, leavesOfList]
      obtain ⟨parts, hp, hpc⟩ := key cs hcs hwfl
      refine ⟨joinSep (" " ++ joinerSql j ++ " ") parts, ?_, ?_⟩
      · simp [parseCond, hp, leavesOf, Bind.bind, Except.bind]
      · have hsep : countQ (" " ++ joinerSql j ++ " ") = 0 := by
          cases j <;> rfl
        rw [countQ_joinSep _ hsep, hpc, leavesOf]

theorem convertOp_unsupported (op : String) (h : op ∉ supportedOps) :
    convertOperatorToSql op = Except.error (CompileErr.invalidCondition op) := by
  unfold convertOperatorToSql
  split <;> simp_all [supportedOps]

/-- C1: for every condition tree (leaf or nested group) whose leaves use
supported operators and placeholder-free field names, `parse` succeeds
with a fragment whose text contains exactly as many `?` placeholders as
the tree has leaves, and whose values list is exactly the pre-order
left-to-right list of the leaves' right-hand values (so for a single
leaf: one placeholder and one value). -/
theorem parse_placeholder_value_correspondence (c : WhereCondition) (h : WellFormed c) :
    ∃ q, parseCond c = Except.ok { query := q, values := (leavesOf c).map (·.2.2) } ∧
      countQ q = (leavesOf c).length :=
  parse_wf_aux (sizeOf c) c le_rfl h

/-- The spec's round-trip example tree:
`{age gt 18} OR {status eq "active"}`. -/
def condExample : WhereCondition :=
  WhereCondition.group BoolJoiner.or
    [WhereCondition.leaf "age" "gt" (Value.vInt 18),
     WhereCondition.leaf "status" "eq" (Value.vStr "active")]

/-- Witness for C1 at the spec's round-trip example
(two leaves joined by OR). -/
theorem parse_placeholder_value_correspondence_witness :
    ∃ q, parseCond condExample =
        Except.ok { query := q, values := (leavesOf condExample).map (·.2.2) } ∧
      countQ q = (leavesOf condExample).length :=
  parse_placeholder_value_correspondence condExample (by decide)

/-- C9: the operator enumeration is closed: each of the nine supported
operators maps 1:1 to its SQL token, and for any operator string outside
the enumeration, compiling a leaf condition raises the
invalid-condition error synchronously. -/
theorem operator_enumeration_closed :
    convertOperatorToSql "eq" = Except.ok "=" ∧
    convertOperatorToSql "ne" = Except.ok "!=" ∧
    convertOperatorToSql "gt" = Except.ok ">" ∧
    convertOperatorToSql "lt" = Except.ok "<" ∧
    convertOperatorToSql "gte" = Except.ok ">=" ∧
    convertOperatorToSql "lte" = Except.ok "<=" ∧
    convertOperatorToSql "in" = Except.ok "IN" ∧
    convertOperatorToSql "nin" = Except.ok "NOT IN" ∧
    convertOperatorToSql "like" = Except.ok "LIKE" ∧
    ∀ op, op ∉ supportedOps → ∀ l r,
      parseCond (WhereCondition.leaf l op r) =
        Except.error (CompileErr.invalidCondition op) := by
  refine ⟨rfl, rfl, rfl, rfl, rfl, rfl, rfl, rfl, rfl, ?_⟩
  intro op hop l r
  simp [parseCond, convertOp_unsupported op hop, Bind.bind, Except.bind]

/-- Witness for C9 at the unsupported operator string `"foo"`. -/
theorem operator_enumeration_closed_witness :
    parseCond (WhereCondition.leaf "x" "foo" Value.vNull) =
      Except.error (CompileErr.invalidCondition "foo") :=
  operator_enumeration_closed.2.2.2.2.2.2.2.2.2 "foo" (by decide) "x" Value.vNull

/-! ## The query factory (`MySqlQueryFactory`) -/

/-- A `Where` instance of `@soapjs/soap`: its `result` getter yields the
built condition tree, or `null` when nothing was built. -/
structure Where where
  result : Option WhereCondition

/-- `FindParams`: all four members optional (JS `undefined` = `none`).
`sort` is an ordered field-to-direction mapping (`Object.keys` order);
`whereC` stands for the TS member `where` (a Lean keyword). -/
structure FindParams where
  limit : Option JsNum := none
  offset : Option JsNum := none
  sort : Option (List (String × Int)) := none
  whereC : Option Where := none

/-- `MySqlFindQueryParams` (`where?`, `sort?`, `limit?` fragments). -/
structure MySqlFindQueryParams where
  whereS : Option String := none
  sortS : Option String := none
  limitS : Option String := none
deriving DecidableEq, Repr

/-- Lines 60–64 of the factory: `Number.isFinite(limit) &&
Number.isFinite(offset)` emits the combined clause, `else if (limit)`
(JS truthiness) emits the single clause, otherwise no fragment. -/
def limitFragment (limit offset : Option JsNum) : Option String :=
  match limit, offset with
  | some (JsNum.num l), some (JsNum.num o) =>
      some ("LIMIT " ++ toString o ++ ", " ++ toString l)
  | lim, _ =>
      if jsTruthyO lim then
        some ("LIMIT " ++ jsNumToStr (lim.getD JsNum.nan))
      else none

/-- The `ORDER BY` fragment: each `(field, direction)` pair renders as
`"<field> DESC"` when the direction is `-1`, else `"<field> ASC"`,
joined by `", "` in the caller-supplied key order. -/
def sortFragment (sort : List (String × Int)) : String :=
  "ORDER BY " ++
    joinSep ", " (sort.map (fun kv => kv.1 ++ " " ++ (if kv.2 = -1 then "DESC" else "ASC")))

/-- `MySqlQueryFactory.createFindQuery`. -/
def createFindQuery (p : FindParams) : Except CompileErr MySqlFindQueryParams := do
  let w ← match p.whereC with
    | some wh => (parseResult wh.result).map (fun f => some ("WHERE " ++ f.query))
    | none => Except.ok none
  let s := match p.sort with
    | some m => some (sortFragment m)
    | none => none
  Except.ok { whereS := w, sortS := s, limitS := limitFragment p.limit p.offset }

/-- `CountParams`: an optional condition. -/
structure CountParams where
  whereC : Option Where := none

/-- `MySqlCountQueryParams` (`where?: string`). -/
structure MySqlCountQueryParams where
  whereS : String
deriving DecidableEq, Repr

/-- `MySqlQueryFactory.createCountQuery`: the template
`` `WHERE ${params.where ? parse(params.where.result).query : ""}` ``. -/
def createCountQuery (p : CountParams) : Except CompileErr MySqlCountQueryParams := do
  let q ← match p.whereC with
    | some wh => (parseResult wh.result).map (·.query)
    | none => Except.ok ""
  Except.ok { whereS := "WHERE " ++ q }

/-- `RemoveParams`: an optional condition. -/
structure RemoveParams where
  whereC : Option Where := none

/-- `MySqlDeleteQueryParams` (`where: string`). -/
structure MySqlDeleteQueryParams where
  whereS : String
deriving DecidableEq, Repr

/-- `MySqlQueryFactory.createRemoveQuery`: reads `params.where.result`
without an optional-chaining guard, so an absent `where` member makes
the property access itself throw a `TypeError`; a present `Where` whose
`result` is `null` (falsy) takes the `{ where: "" }` branch. -/
def createRemoveQuery (p : RemoveParams) : Except CompileErr MySqlDeleteQueryParams :=
  match p.whereC with
  | none => Except.error CompileErr.typeError
  | some wh =>
    match wh.result with
    | some c => (parseCond c).map (fun f => { whereS := "WHERE " ++ f.query })
    | none => Except.ok { whereS := "" }

/-- One update payload: an ordered field-to-value record
(`Object.keys` / `Object.values` share this order). -/
structure UpdatePayload where
  fields : List (String × Value)

/-- `MySqlUpdateRow = { keys, values, where }`: note the type has no
member for the condition's bound values; `whereText` stands for the TS
member `where`. -/
structure MySqlUpdateRow where
  keys : List String
  values : List Value
  whereText : String
deriving DecidableEq, Repr

/-- `MySqlUpdateQueryParams = { updates: MySqlUpdateRow[] }`. -/
structure MySqlUpdateQueryParams where
  updates : List MySqlUpdateRow
deriving DecidableEq, Repr

/-- The row built for one payload in `createUpdateQuery`:
`keys = Object.keys(update).map(k => k + " = ?")`,
`values = Object.values(update)`, and `where` keeps ONLY the `.query`
text of the parsed condition — the parsed `values` are dropped. -/
def rowOf (u : UpdatePayload) (f : Frag) : MySqlUpdateRow :=
  { keys := u.fields.map (fun kv => kv.1 ++ " = ?"),
    values := u.fields.map (·.2),
    whereText := f.query }

/-- The `updates.forEach` loop of `createUpdateQuery`, run over the
payloads paired with `where[i]` (an array slot that is `undefined` when
the original array was empty: reading `.result` then throws). -/
def buildRows : List (UpdatePayload × Option Where) → Except CompileErr (List MySqlUpdateRow)
  | [] => Except.ok []
  | (_, none) :: _ => Except.error CompileErr.typeError
  | (u, some w) :: rest => do
      let f ← parseResult w.result
      let rs ← buildRows rest
      Except.ok (rowOf u f :: rs)

/-- `MySqlQueryFactory.createUpdateQuery(updates, where)`.  The TS
method mutates the caller's `where` array in place
(`where.push(lastWhere)` for each surplus payload) before the loop; the
second component of the result is the state of that array after the
call (`where.at(-1)` of an empty array is `undefined` = `none`). -/
def createUpdateQuery (updates : List UpdatePayload) (wl : List Where) :
    Except CompileErr MySqlUpdateQueryParams × List (Option Where) :=
  let arr : List (Option Where) := wl.map some
  let diff := updates.length - wl.length
  let arr2 := if wl.length < updates.length
    then arr ++ List.replicate diff wl.getLast?
    else arr
  ((buildRows (updates.zip arr2)).map (fun rows => { updates := rows }), arr2)

/-- The UPDATE statement text assembled by `updateOne` / `updateMany`:
`` `UPDATE ${table} SET ${row.keys.join(", ")} ${row.where}` ``. -/
def updateSql (t : String) (r : MySqlUpdateRow) : String :=
  "UPDATE " ++ t ++ " SET " ++ joinSep ", " r.keys ++ " " ++ r.whereText

/-! ## Claims about the factory's default and limit fragments -/

/-- C3 (evidence of the divergence): `createCountQuery({})` — no
condition supplied — yields `where = "WHERE "` (a dangling keyword with
a trailing space), not the neutral-true `"WHERE 1=1"`; the neutral-true
default only appears when a `Where` object whose `result` is `null` is
supplied. -/
theorem count_default_is_dangling_where :
    createCountQuery { whereC := none } = Except.ok { whereS := "WHERE " } ∧
    ("WHERE " : String) ≠ "WHERE 1=1" ∧
    createCountQuery { whereC := some { result := none } } =
      Except.ok { whereS := "WHERE 1=1" } :=
  ⟨rfl, by decide, rfl⟩

/-- C6 (evidence of the divergence): `createRemoveQuery({})` — the
`where` member absent — throws a `TypeError` (the unguarded
`params.where.result` read), instead of returning `where = ""`; the
empty-string default is only reached when a `Where` object with a
`null` result is supplied. -/
theorem remove_missing_where_throws :
    createRemoveQuery { whereC := none } = Except.error CompileErr.typeError ∧
    createRemoveQuery { whereC := some { result := none } } =
      Except.ok { whereS := "" } :=
  ⟨rfl, rfl⟩

/-- C7 counterexample: `createFindQuery({limit: 0})` — a finite limit,
no offset — emits NO limit fragment (`0` is falsy in `else if (limit)`),
contradicting the claim that every finite limit, including `0`, yields
`"LIMIT <limit>"`. -/
theorem find_limit_zero_counterexample :
    createFindQuery { limit := some (JsNum.num 0) } =
      Except.ok { whereS := none, sortS := none, limitS := none } ∧
    (none : Option String) ≠ some "LIMIT 0" :=
  ⟨rfl, by decide⟩

/-- The limit fragment as the amended claim words it: the combined
clause exactly when both limit and offset are finite; the single clause
exactly when that fails and the limit is truthy (nonzero finite or an
infinity — `0`, `NaN` and `undefined` are falsy); nothing otherwise. -/
def limitFragmentSpec (limit offset : Option JsNum) : Option String :=
  if jsIsFiniteO limit && jsIsFiniteO offset then
    some ("LIMIT " ++ jsNumToStr (offset.getD JsNum.nan) ++ ", " ++
      jsNumToStr (limit.getD JsNum.nan))
  else if jsTruthyO limit then
    some ("LIMIT " ++ jsNumToStr (limit.getD JsNum.nan))
  else none

/-- C7 amended: the compiled limit fragment is `"LIMIT <offset>,
<limit>"` exactly when both are finite, `"LIMIT <limit>"` exactly when
the limit is truthy (so NOT for `0`, but also for `Infinity`) and the
combined case does not apply, and absent otherwise; in particular an
offset without a limit emits nothing, and this is exactly the limit
fragment `createFindQuery` returns. -/
theorem find_limit_fragment_characterization :
    (∀ l o, limitFragment l o = limitFragmentSpec l o) ∧
    limitFragment (some (JsNum.num 10)) (some (JsNum.num 5)) = some "LIMIT 5, 10" ∧
    limitFragment (some (JsNum.num 10)) none = some "LIMIT 10" ∧
    limitFragment none (some (JsNum.num 5)) = none ∧
    limitFragment (some (JsNum.num 0)) none = none ∧
    limitFragment (some JsNum.inf) none = some "LIMIT Infinity" ∧
    ∀ lim off srt, ∃ r,
      createFindQuery { limit := lim, offset := off, sort := srt, whereC := none } =
        Except.ok r ∧ r.limitS = limitFragment lim off := by
  refine ⟨?_, by decide, by decide, by decide, by decide, by decide, ?_⟩
  · intro l o
    cases l with
    | none => cases o with
      | none => rfl
      | some y => cases y <;> rfl
    | some x => cases x <;> (cases o with
      | none => rfl
      | some y => cases y <;> rfl)
  · intro lim off srt
    cases srt <;>
      exact ⟨_, rfl, rfl⟩

/-! ## Claims about `createUpdateQuery` -/

/-- The first concrete update payload (`{name: "Bob"}`). -/
def updExample : UpdatePayload := ⟨[("name", Value.vStr "Bob")]⟩

/-- A second concrete update payload (`{role: "admin"}`). -/
def updExample2 : UpdatePayload := ⟨[("role", Value.vStr "admin")]⟩

/-- A concrete condition object (`age gt 18`). -/
def whereExample : Where := ⟨some (WhereCondition.leaf "age" "gt" (Value.vInt 18))⟩

/-- The row `createUpdateQuery` emits for `updExample` under
`whereExample`. -/
def rowExample : MySqlUpdateRow :=
  { keys := ["name = ?"], values := [Value.vStr "Bob"], whereText := "age > ?" }

/-- C2 (evidence of the divergence): for the payload `{name: "Bob"}`
with condition `age > 18`, the emitted row keeps only the condition's
text (`"age > ?"`) — the bound value `18` appears nowhere in the row
(the `MySqlUpdateRow` type has no slot for it), so the full UPDATE
statement has 2 placeholders but the row carries only 1 value. -/
theorem update_row_drops_condition_values :
    (createUpdateQuery [updExample] [whereExample]).1 =
      Except.ok { updates := [rowExample] } ∧
    updateSql "users" rowExample = "UPDATE users SET name = ? age > ?" ∧
    countQ (updateSql "users" rowExample) = 2 ∧
    rowExample.values.length = 1 ∧
    Value.vInt 18 ∉ rowExample.values :=
  ⟨rfl, rfl, by decide, rfl, by decide⟩

/-- C10 counterexample: after `createUpdateQuery` with 2 payloads and 1
condition, the caller's conditions array has been mutated: it now holds
2 elements (the last condition pushed once more), not its original 1. -/
theorem update_mutates_conditions_counterexample :
    ((createUpdateQuery [updExample, updExample2] [whereExample]).2).length ≠
      ([whereExample] : List Where).length ∧
    (createUpdateQuery [updExample, updExample2] [whereExample]).2 =
      [some whereExample, some whereExample] :=
  ⟨by decide, rfl⟩

/-- C10 amended: the compile methods perform no I/O and are
deterministic, but `createUpdateQuery` is not frame-preserving on its
`where` argument: when the payloads outnumber the conditions it pushes
the last condition onto the caller's array once per surplus payload
(final length `max` of the two lengths); only when payloads do not
outnumber conditions is the array left unchanged. -/
theorem update_mutation_characterization (updates : List UpdatePayload) (wl : List Where) :
    (createUpdateQuery updates wl).2 =
      (if wl.length < updates.length
       then wl.map some ++ List.replicate (updates.length - wl.length) wl.getLast?
       else wl.map some) ∧
    ((createUpdateQuery updates wl).2).length = max wl.length updates.length := by
  refine ⟨rfl, ?_⟩
  show (if wl.length < updates.length
       then wl.map some ++ List.replicate (updates.length - wl.length) wl.getLast?
       else wl.map some).length = max wl.length updates.length
  split <;> simp <;> omega

theorem buildRows_append (a b : List (UpdatePayload × Option Where)) :
    buildRows (a ++ b) =
      Except.bind (buildRows a) (fun x =>
        Except.bind (buildRows b) (fun y => Except.ok (x ++ y))) := by
  induction a with
  | nil =>
    cases hb : buildRows b <;> simp [buildRows, Except.bind, hb]
  | cons p rest ih =>
    obtain ⟨u, ow⟩ := p
    cases ow with
    | none => rfl
    | some w =>
      cases hw : parseResult w.result with
      | error e => simp [buildRows, Bind.bind, Except.bind, hw]
      | ok f =>
        cases hr : buildRows rest with
        | error e => simp [buildRows, Bind.bind, Except.bind, hw, hr, ih]
        | ok x =>
          cases hb : buildRows b with
          | error e => simp [buildRows, Bind.bind, Except.bind, hw, hr, hb, ih]
          | ok y => simp [buildRows, Bind.bind, Except.bind, hw, hr, hb, ih]

theorem buildRows_ok_len (l : List (UpdatePayload × Option Where))
    (h : ∀ p ∈ l, ∃ w f, p.2 = some w ∧ parseResult w.result = Except.ok f) :
    ∃ rows, buildRows l = Except.ok rows ∧ rows.length = l.length := by
  induction l with
  | nil => exact ⟨[], rfl, rfl⟩
  | cons p rest ih =>
    obtain ⟨u, ow⟩ := p
    obtain ⟨w, f, hw, hf⟩ := h (u, ow) (by simp)
    have hw' : ow = some w := hw
    subst hw'
    obtain ⟨rows, hr, hlen⟩ := ih (fun q hq => h q (by simp [hq]))
    exact ⟨rowOf u f :: rows, by simp [buildRows, hf, hr, Bind.bind, Except.bind],
      by simp [hlen]⟩

theorem buildRows_const (w : Where) (f : Frag) (hf : parseResult w.result = Except.ok f) :
    ∀ us : List UpdatePayload,
      buildRows (us.zip (List.replicate us.length (some w))) =
        Except.ok (us.map (fun u => rowOf u f)) := by
  intro us
  induction us with
  | nil => rfl
  | cons u rest ih =>
    simp only [List.length_cons, List.replicate_succ, List.zip_cons_cons, buildRows,
      hf, List.map_cons, Bind.bind, Except.bind]
    simp only [List.zip] at ih
    rw [ih]

theorem map_const_replicate (f : Frag) (rs : List UpdatePayload) :
    (rs.map (fun u => rowOf u f)).map (·.whereText) =
      List.replicate rs.length f.query := by
  induction rs with
  | nil => rfl
  | cons r rest ih =>
    simp only [List.map_cons, List.length_cons, List.replicate_succ]
    exact congrArg (List.cons f.query) ih

theorem mem_of_getLast_eq (l : List Where) (w : Where) (h : l.getLast? = some w) :
    w ∈ l := by
  obtain ⟨l2, rfl⟩ := List.getLast?_eq_some_iff.mp h
  simp

/-- C8: when the update payloads outnumber the supplied conditions (and
at least one condition exists, every supplied condition compiling), no
error is raised: every payload yields a row, and all the excess rows
(those past the last supplied condition) carry the compiled text of the
last supplied condition. -/
theorem update_condition_reuse (updates : List UpdatePayload) (wl : List Where)
    (w : Where) (hlast : wl.getLast? = some w) (hgt : wl.length < updates.length)
    (hok : ∀ x ∈ wl, ∃ f, parseResult x.result = Except.ok f) :
    ∃ rows f, parseResult w.result = Except.ok f ∧
      (createUpdateQuery updates wl).1 = Except.ok { updates := rows } ∧
      rows.length = updates.length ∧
      (rows.drop wl.length).map (·.whereText) =
        List.replicate (updates.length - wl.length) f.query := by
  obtain ⟨f, hf⟩ := hok w (mem_of_getLast_eq wl w hlast)
  have hsplit : updates = updates.take wl.length ++ updates.drop wl.length :=
    (List.take_append_drop _ _).symm
  have htl : (updates.take wl.length).length = wl.length :=
    List.length_take_of_le (le_of_lt hgt)
  have hdl : (updates.drop wl.length).length = updates.length - wl.length := by
    simp
  have harr2 : (if wl.length < updates.length
      then wl.map some ++ List.replicate (updates.length - wl.length) wl.getLast?
      else wl.map some) =
      wl.map some ++ List.replicate (updates.length - wl.length) (some w) := by
    rw [if_pos hgt, hlast]
  have hzip : updates.zip
        (wl.map some ++ List.replicate (updates.length - wl.length) (some w)) =
      (updates.take wl.length).zip (wl.map some) ++
        (updates.drop wl.length).zip
          (List.replicate (updates.length - wl.length) (some w)) := by
    generalize List.replicate (updates.length - wl.length) (some w) = R
    conv_lhs => rw [hsplit]
    exact List.zip_append (by rw [htl, List.length_map])
  obtain ⟨ra, hra, hral⟩ := buildRows_ok_len ((updates.take wl.length).zip (wl.map some))
    (by
      intro p hp
      have h2 := (List.of_mem_zip hp).2
      obtain ⟨x, hx, hxe⟩ := List.mem_map.mp h2
      obtain ⟨g, hg⟩ := hok x hx
      exact ⟨x, g, hxe.symm, hg⟩)
  have hrb := buildRows_const w f hf (updates.drop wl.length)
  rw [hdl] at hrb
  have hzl : ra.length = wl.length := by
    simp [hral, htl]
  refine ⟨ra ++ (updates.drop wl.length).map (fun u => rowOf u f), f, hf, ?_, ?_, ?_⟩
  · show (buildRows (updates.zip (if wl.length < updates.length
        then wl.map some ++ List.replicate (updates.length - wl.length) wl.getLast?
        else wl.map some))).map (fun rows => ({ updates := rows } :
          MySqlUpdateQueryParams)) = _
    rw [harr2, hzip, buildRows_append, hra, hrb]
    rfl
  · rw [List.length_append, hzl, List.length_map, hdl]
    omega
  · rw [← hzl, List.drop_left, map_const_replicate, List.length_drop]

/-- Witness for C8 at the spec's own example: 3 payloads, 1 condition;
all three rows compile with the single condition `age > ?`. -/
theorem update_condition_reuse_witness :
    ∃ rows f, parseResult whereExample.result = Except.ok f ∧
      (createUpdateQuery [updExample, updExample2, updExample] [whereExample]).1 =
        Except.ok { updates := rows } ∧
      rows.length = ([updExample, updExample2, updExample] : List UpdatePayload).length ∧
      (rows.drop ([whereExample] : List Where).length).map (·.whereText) =
        List.replicate (([updExample, updExample2, updExample] :
            List UpdatePayload).length - ([whereExample] : List Where).length)
          f.query :=
  update_condition_reuse [updExample, updExample2, updExample] [whereExample]
    whereExample rfl (by decide)
    (by
      intro x hx
      simp only [List.mem_singleton] at hx
      subst hx
      exact ⟨{ query := "age > ?", values := [Value.vInt 18] }, rfl⟩)

/-! ## The execution layer (`MySqlCollection`) -/

/-- A row/record: an ordered field-to-value object. -/
structure Rec where
  fields : List (String × Value)
deriving DecidableEq, Repr

/-- The driver's `ResultSetHeader` / row-set answer to one `query`
call: affected-row count, first auto-increment insert id, and rows. -/
structure ExecResult where
  affectedRows : Nat := 0
  insertId : Nat := 0
  rows : List Rec := []
deriving DecidableEq, Repr

/-- An error produced by the connection/pool driver. -/
structure DriverErr where
  msg : String
deriving DecidableEq, Repr

/-- The connection/pool capability: `query(text, values)` resolving to
a result or rejecting with a driver error. -/
structure Driver where
  exec : String → List Value → Except DriverErr ExecResult

/-- A JS exception reaching a `catch` block: a rejected driver call, or
a `TypeError` from a property access on `undefined`. -/
inductive JsErr where
  | driver (e : DriverErr)
  | typeError
deriving DecidableEq, Repr

/-- `CollectionError.createError(error)` — the wrapper every raising
operation throws (the spec's `ExecutionError`). -/
inductive CollectionError where
  | createError (cause : JsErr)
deriving DecidableEq, Repr

/-- `OperationStatus` of `@soapjs/soap`. -/
inductive OperationStatus where
  | success
  | failure
deriving DecidableEq, Repr

/-- `UpdateStats`: status plus optional modified-row count. -/
structure UpdateStats where
  status : OperationStatus
  modifiedCount : Option Nat := none
deriving DecidableEq, Repr

/-- `RemoveStats`: literal `"ok"` status plus deleted-row count. -/
structure RemoveStats where
  status : String
  deletedCount : Nat
deriving DecidableEq, Repr

/-- Observable pool interactions of an update call, in order (used to
state the rollback behaviour of the multi-row transaction path). -/
inductive Action where
  | begin
  | exec (sql : String) (values : List Value)
  | commit
  | rollback
deriving DecidableEq, Repr

/-- An optional fragment is appended to the statement parts only when
truthy (JS: `undefined` and `""` are falsy). -/
def optPart : Option String → List String
  | some s => if s = "" then [] else [s]
  | none => []

/-- The SELECT statement `find` assembles from fragments. -/
def findSql (t : String) (q : Option MySqlFindQueryParams) : String :=
  match q with
  | none => "SELECT * FROM " ++ t
  | some p =>
      joinSep " " (("SELECT * FROM " ++ t) ::
        (optPart p.whereS ++ optPart p.sortS ++ optPart p.limitS))

/-- `MySqlCollection.find`: raw strings run verbatim; fragment bundles
are assembled; a rejected driver call is rethrown as a
`CollectionError`. -/
def find (d : Driver) (t : String) (q : Option (String ⊕ MySqlFindQueryParams)) :
    Except CollectionError (List Rec) :=
  let sql := match q with
    | some (Sum.inl s) => s
    | some (Sum.inr p) => findSql t (some p)
    | none => findSql t none
  match d.exec sql [] with
  | Except.ok r => Except.ok r.rows
  | Except.error e => Except.error (CollectionError.createError (JsErr.driver e))

/-- `MySqlInsertQueryParams = { documents: T[] }`. -/
structure MySqlInsertQueryParams where
  documents : List Rec

/-- The expression `query[0]` in `MySqlCollection.insert`: it reads the
numeric property `0` of the params OBJECT `{ documents: [...] }` (not
of the `documents` array), a property that never exists — so the
expression evaluates to `undefined`. -/
def insertIndexZero (_q : MySqlInsertQueryParams) : Option Rec := none

/-- `MySqlCollection.insert`.  A raw string executes verbatim and
returns `[]`.  For structured params the code computes
`Object.keys(query[0])`; since `query[0]` is `undefined` that access
throws a `TypeError`, caught and rethrown as a `CollectionError`.  The
never-reached remainder (multi-row VALUES, id synthesis
`insertId + index`) is embedded faithfully after the `undefined`
check; the returned pairs are (record, synthesized id). -/
def insert (d : Driver) (t : String) (q : String ⊕ MySqlInsertQueryParams) :
    Except CollectionError (List (Rec × Nat)) :=
  match q with
  | Sum.inl s =>
    match d.exec s [] with
    | Except.ok _ => Except.ok []
    | Except.error e => Except.error (CollectionError.createError (JsErr.driver e))
  | Sum.inr params =>
    match insertIndexZero params with
    | none => Except.error (CollectionError.createError JsErr.typeError)
    | some first =>
      let columns := joinSep ", " (first.fields.map (·.1))
      let placeholders := joinSep ", "
        (params.documents.map (fun _ =>
          "(" ++ joinSep ", " (first.fields.map (fun _ => "?")) ++ ")"))
      let values := (params.documents.map (fun r => r.fields.map (·.2))).flatten
      let sql := "INSERT INTO " ++ t ++ " (" ++ columns ++ ") VALUES " ++ placeholders
      match d.exec sql values with
      | Except.ok res =>
          Except.ok (params.documents.enum.map (fun p => (p.2, res.insertId + p.1)))
      | Except.error e => Except.error (CollectionError.createError (JsErr.driver e))

/-- The DELETE statement `remove` assembles (empty `where` is falsy and
not appended). -/
def removeSql (t : String) (q : Option MySqlDeleteQueryParams) : String :=
  joinSep " " (("DELETE FROM " ++ t) ::
    (match q with
     | some p => optPart (some p.whereS)
     | none => []))

/-- `MySqlCollection.remove`: raises a `CollectionError` on driver
failure, otherwise reports `"ok"` with the affected-row count. -/
def remove (d : Driver) (t : String) (q : Option (String ⊕ MySqlDeleteQueryParams)) :
    Except CollectionError RemoveStats :=
  let sql := match q with
    | some (Sum.inl s) => s
    | some (Sum.inr p) => removeSql t (some p)
    | none => removeSql t none
  match d.exec sql [] with
  | Except.ok r => Except.ok { status := "ok", deletedCount := r.affectedRows }
  | Except.error e => Except.error (CollectionError.createError (JsErr.driver e))

/-- The COUNT statement `count` assembles. -/
def countSql (t : String) (q : Option MySqlCountQueryParams) : String :=
  joinSep " " (("SELECT COUNT(*) AS count FROM " ++ t) ::
    (match q with
     | some p => optPart (some p.whereS)
     | none => []))

/-- `MySqlCollection.count`: on success reads `result[0]?.count`; a
non-integer (or missing) count yields the `NaN` sentinel instead of an
error; a rejected driver call raises a `CollectionError`. -/
def count (d : Driver) (t : String) (q : Option (String ⊕ MySqlCountQueryParams)) :
    Except CollectionError JsNum :=
  let sql := match q with
    | some (Sum.inl s) => s
    | some (Sum.inr p) => countSql t (some p)
    | none => countSql t none
  match d.exec sql [] with
  | Except.error e => Except.error (CollectionError.createError (JsErr.driver e))
  | Except.ok res =>
    Except.ok (match res.rows.head? with
      | some r0 =>
        match r0.fields.lookup "count" with
        | some (Value.vInt n) => JsNum.num n
        | _ => JsNum.nan
      | none => JsNum.nan)

/-- `MySqlAggregateParams` as produced by the factory (all four text
members always set, possibly to `""`). -/
structure MySqlAggregateParams where
  pipeline : String
  whereS : String := ""
  sortS : String := ""
  groupByS : String := ""
deriving DecidableEq, Repr

/-- `MySqlCollection.aggregate`: template-concatenates the fragments
and raises a `CollectionError` on driver failure. -/
def aggregate (d : Driver) (t : String) (q : MySqlAggregateParams) :
    Except CollectionError (List Rec) :=
  let sql := "SELECT " ++ q.pipeline ++ " FROM " ++ t ++ " " ++ q.whereS ++ " " ++
    q.groupByS ++ " " ++ q.sortS
  match d.exec sql [] with
  | Except.ok r => Except.ok r.rows
  | Except.error e => Except.error (CollectionError.createError (JsErr.driver e))

/-- `MySqlCollection.updateOne`: executes one UPDATE; the `catch`
returns a `Failure` STATUS — it neither rethrows nor rolls back. -/
def updateOne (d : Driver) (t : String) (row : MySqlUpdateRow) :
    UpdateStats × List Action :=
  match d.exec (updateSql t row) row.values with
  | Except.ok r =>
      ({ status := OperationStatus.success, modifiedCount := some r.affectedRows },
       [Action.exec (updateSql t row) row.values])
  | Except.error _ =>
      ({ status := OperationStatus.failure, modifiedCount := none },
       [Action.exec (updateSql t row) row.values])

/-- `MySqlCollection.updateMany`: begins a transaction, issues every
row's UPDATE, and on total success commits with the summed
affected-row count; on any failure rolls back and returns a `Failure`
status (no exception propagates). -/
def updateMany (d : Driver) (t : String) (rows : List MySqlUpdateRow) :
    UpdateStats × List Action :=
  let results := rows.map (fun r => d.exec (updateSql t r) r.values)
  let log := Action.begin :: rows.map (fun r => Action.exec (updateSql t r) r.values)
  if results.all (fun r => r.toBool) then
    ({ status := OperationStatus.success,
       modifiedCount := some ((results.map (fun r =>
         match r with
         | Except.ok x => x.affectedRows
         | Except.error _ => 0)).sum) },
     log ++ [Action.commit])
  else
    ({ status := OperationStatus.failure, modifiedCount := none },
     log ++ [Action.rollback])

/-- `MySqlCollection.update`: a raw string executes directly and DOES
rethrow driver failures as `CollectionError`; structured params route a
single row to `updateOne` and anything else to `updateMany` (both of
which always resolve with a status). -/
def update (d : Driver) (t : String) (q : String ⊕ MySqlUpdateQueryParams) :
    Except CollectionError UpdateStats × List Action :=
  match q with
  | Sum.inl s =>
    match d.exec s [] with
    | Except.ok r =>
        (Except.ok { status := OperationStatus.success,
                     modifiedCount := some r.affectedRows },
         [Action.exec s []])
    | Except.error e =>
        (Except.error (CollectionError.createError (JsErr.driver e)), [Action.exec s []])
  | Sum.inr params =>
    match params.updates with
    | [row] =>
      let p := updateOne d t row
      (Except.ok p.1, p.2)
    | rows =>
      let p := updateMany d t rows
      (Except.ok p.1, p.2)

/-- A pool whose every `query` call rejects with the given error. -/
def constFailDriver (e : DriverErr) : Driver :=
  ⟨fun _ _ => Except.error e⟩

/-- A pool whose every `query` call resolves with an empty result. -/
def okDriver : Driver :=
  ⟨fun _ _ => Except.ok {}⟩

/-- C4 (evidence of the divergence): a structured single-record insert
against a driver that would succeed still throws a `CollectionError`
wrapping a `TypeError`: the code reads `query[0]` (the params object
has no index `0` — the records live in `query.documents`), so
`Object.keys(undefined)` throws before any SQL is built, and no
augmented records are ever returned. -/
theorem insert_structured_always_throws :
    insert okDriver "users"
        (Sum.inr { documents := [⟨[("name", Value.vStr "Bob")]⟩] }) =
      Except.error (CollectionError.createError JsErr.typeError) := rfl

/-- C5 counterexample: against a driver whose execution fails, the
single-row structured update resolves with a `Failure` STATUS — it does
not raise any error — contradicting the claim that the single-row path
raises an `ExecutionError`. -/
theorem single_row_update_failure_counterexample :
    (update (constFailDriver ⟨"connection lost"⟩) "users"
        (Sum.inr { updates := [rowExample] })).1 =
      Except.ok { status := OperationStatus.failure, modifiedCount := none } ∧
    ¬ ∃ ce, (update (constFailDriver ⟨"connection lost"⟩) "users"
        (Sum.inr { updates := [rowExample] })).1 = Except.error ce := by
  refine ⟨rfl, ?_⟩
  rintro ⟨ce, hce⟩
  rw [show (update (constFailDriver ⟨"connection lost"⟩) "users"
      (Sum.inr { updates := [rowExample] })).1 =
    Except.ok { status := OperationStatus.failure, modifiedCount := none } from rfl] at hce
  cases hce

/-- C5 amended: on driver failure BOTH structured update paths capture
the failure and resolve with a `Failure` status instead of raising —
the multi-row path additionally wraps its statements in a transaction
and rolls back, while the single-row path issues no transaction
commands at all; the raw-string update, and `find`, `insert` (raw
string; the structured form throws its own `TypeError` even earlier),
`remove`, `count` and `aggregate` all raise a `CollectionError`. -/
theorem driver_failure_asymmetry (e : DriverErr) (t sRaw : String)
    (row r1 r2 : MySqlUpdateRow) (rs : List MySqlUpdateRow)
    (fp : MySqlFindQueryParams) (dp : MySqlDeleteQueryParams)
    (cp : MySqlCountQueryParams) (ap : MySqlAggregateParams)
    (ip : MySqlInsertQueryParams) :
    (update (constFailDriver e) t (Sum.inr { updates := [row] })).1 =
      Except.ok { status := OperationStatus.failure, modifiedCount := none } ∧
    (update (constFailDriver e) t (Sum.inr { updates := [row] })).2 =
      [Action.exec (updateSql t row) row.values] ∧
    (update (constFailDriver e) t (Sum.inr { updates := r1 :: r2 :: rs })).1 =
      Except.ok { status := OperationStatus.failure, modifiedCount := none } ∧
    (update (constFailDriver e) t (Sum.inr { updates := r1 :: r2 :: rs })).2 =
      Action.begin ::
        ((r1 :: r2 :: rs).map (fun r => Action.exec (updateSql t r) r.values) ++
          [Action.rollback]) ∧
    (update (constFailDriver e) t (Sum.inl sRaw)).1 =
      Except.error (CollectionError.createError (JsErr.driver e)) ∧
    find (constFailDriver e) t (some (Sum.inr fp)) =
      Except.error (CollectionError.createError (JsErr.driver e)) ∧
    insert (constFailDriver e) t (Sum.inl sRaw) =
      Except.error (CollectionError.createError (JsErr.driver e)) ∧
    insert (constFailDriver e) t (Sum.inr ip) =
      Except.error (CollectionError.createError JsErr.typeError) ∧
    remove (constFailDriver e) t (some (Sum.inr dp)) =
      Except.error (CollectionError.createError (JsErr.driver e)) ∧
    count (constFailDriver e) t (some (Sum.inr cp)) =
      Except.error (CollectionError.createError (JsErr.driver e)) ∧
    aggregate (constFailDriver e) t ap =
      Except.error (CollectionError.createError (JsErr.driver e)) :=
  ⟨rfl, rfl, rfl, rfl, rfl, rfl, rfl, rfl, rfl, rfl, rfl⟩

end SoapMySql
